import Mathlib

/-!
Verification of the attendance marking/locking/reporting logic of the
Online Class Attendance Tracker (`apps/classes/views.py`,
`SectionCourseDetailView`, and the attendance models).

Modelling conventions:
* Aware datetimes are integers counting minutes since an epoch in the
  (single, fixed) current timezone; `datetime.combine(d, t)` is
  `d * 1440 + t`, `timedelta(hours = h)` is `h * 60`.  `timezone.localdate`
  is floor division by 1440, the local clock time is the remainder.
* Weekday names follow the Unix epoch (day 0 is a Thursday), uppercased as
  produced by `strftime('%A').upper()`.
* Python strings are modelled as `List Char`; `strip`, `upper`, `split`,
  `replace` and `strptime` are re-implemented below following CPython's
  semantics for the formats the code uses.
-/

namespace Attendance

/-- Model of `timezone.localdate` / `local_now.date()`: day index of a minute stamp. -/
def localDate (now : Int) : Int := Int.fdiv now 1440

/-- Local clock time (minutes after midnight) of a minute stamp. -/
def minutesOfDay (now : Int) : Nat := (Int.emod now 1440).toNat

/-- Model of `timezone.make_aware(datetime.combine(d, t))` for day index `d` and a
clock time of `t` minutes after midnight. -/
def combine (d : Int) (t : Nat) : Int := d * 1440 + (t : Int)

/-- Uppercase English weekday names, Monday-first as in `calendar`. -/
def weekdayNames : List String :=
  ["MONDAY", "TUESDAY", "WEDNESDAY", "THURSDAY", "FRIDAY", "SATURDAY", "SUNDAY"]

/-- Model of `local_now.strftime('%A').upper()`: day 0 (the epoch) is a Thursday. -/
def weekdayName (d : Int) : String :=
  weekdayNames.getD ((d + 3).emod 7).toNat ""

end Attendance

namespace PyStr

/-- Python `str.strip()` (both ends) on a character list. -/
def strip (l : List Char) : List Char :=
  ((l.dropWhile Char.isWhitespace).reverse.dropWhile Char.isWhitespace).reverse

/-- Python `str.upper()` (ASCII suffices for this code's inputs). -/
def upper (l : List Char) : List Char := l.map Char.toUpper

/-- Python `str.split(sep)` for a single-character separator: splitting
never drops empty fragments, and splitting the empty string yields one
empty fragment. -/
def splitOnChar (sep : Char) : List Char → List (List Char)
  | [] => [[]]
  | c :: rest =>
    match splitOnChar sep rest with
    | t :: ts => if c = sep then [] :: t :: ts else (c :: t) :: ts
    | [] => [[c]]

/-- Python `str.replace(old, new)` for single characters. -/
def replaceChar (old new : Char) (l : List Char) : List Char :=
  l.map fun c => if c = old then new else c

/-- Model of `time_part.replace('â€“', '-')`: the source file contains the
three-character mojibake sequence U+00E2 U+20AC U+201C as the pattern,
replaced (all non-overlapping occurrences, left to right) by a hyphen. -/
def replaceDashSeq : List Char → List Char
  | c1 :: c2 :: c3 :: rest =>
    if c1 = 'â' ∧ c2 = '€' ∧ c3 = '“' then
      '-' :: replaceDashSeq rest
    else
      c1 :: replaceDashSeq (c2 :: c3 :: rest)
  | l => l

end PyStr

namespace Strptime

/-!
`datetime.strptime` for the four formats tried by `parse_clock`:
`'%I:%M %p'`, `'%I %p'`, `'%H:%M'`, `'%H'`.  CPython's `_strptime`
compiles each directive to a regex alternation and requires the whole
string to match; the alternations (in CPython's order) are
`%I ↦ 1[0-2]|0[1-9]|[1-9]`, `%H ↦ 2[0-3]|[0-1]\d|\d`, `%M ↦ [0-5]\d|\d`,
`%p ↦ AM|PM` (case-insensitive; inputs are uppercased first), and a
whitespace character in the format matches one or more whitespace
characters.  We model each directive as the ordered list of its possible
(value, remaining input) matches and backtrack over them. -/

def isDigit (c : Char) : Bool := '0' ≤ c ∧ c ≤ '9'

def digitVal (c : Char) : Nat := c.toNat - 48

/-- Directive `%I`: `1[0-2]|0[1-9]|[1-9]`, ordered as in the regex. -/
def altI : List Char → List (Nat × List Char)
  | [] => []
  | c :: rest =>
    let single := if '1' ≤ c ∧ c ≤ '9' then [(digitVal c, rest)] else []
    match c, rest with
    | '1', c2 :: r2 =>
      (if '0' ≤ c2 ∧ c2 ≤ '2' then [(10 + digitVal c2, r2)] else []) ++ single
    | '0', c2 :: r2 =>
      if '1' ≤ c2 ∧ c2 ≤ '9' then [(digitVal c2, r2)] else []
    | _, _ => single

/-- Directive `%H`: `2[0-3]|[0-1]\d|\d`, ordered as in the regex. -/
def altH : List Char → List (Nat × List Char)
  | [] => []
  | c :: rest =>
    let single := if isDigit c then [(digitVal c, rest)] else []
    match rest with
    | c2 :: r2 =>
      (if c = '2' ∧ '0' ≤ c2 ∧ c2 ≤ '3' then [(20 + digitVal c2, r2)] else []) ++
      (if (c = '0' ∨ c = '1') ∧ isDigit c2 then
        [(digitVal c * 10 + digitVal c2, r2)] else []) ++ single
    | [] => single

/-- Directive `%M`: `[0-5]\d|\d`, ordered as in the regex. -/
def altM : List Char → List (Nat × List Char)
  | [] => []
  | c :: rest =>
    let single := if isDigit c then [(digitVal c, rest)] else []
    match rest with
    | c2 :: r2 =>
      (if '0' ≤ c ∧ c ≤ '5' ∧ isDigit c2 then
        [(digitVal c * 10 + digitVal c2, r2)] else []) ++ single
    | [] => single

/-- Directive `%p`: `AM|PM` on the already-uppercased input; 0 for AM, 1 for PM. -/
def altP : List Char → List (Nat × List Char)
  | 'A' :: 'M' :: rest => [(0, rest)]
  | 'P' :: 'M' :: rest => [(1, rest)]
  | _ => []

/-- Backtracking: try each alternative in order with the continuation. -/
def tryAlts (alts : List (Nat × List Char)) (k : Nat → List Char → Option Nat) :
    Option Nat :=
  match alts with
  | [] => none
  | (v, rest) :: more =>
    match k v rest with
    | some r => some r
    | none => tryAlts more k

/-- A whitespace character in the format: `\s+` (the directive that follows
in every format used here never matches a whitespace character, so the
greedy match needs no backtracking). -/
def wsPlus : List Char → Option (List Char)
  | c :: rest =>
    if c.isWhitespace then some (rest.dropWhile Char.isWhitespace) else none
  | [] => none

/-- Conversion of a 12-hour value plus AM/PM flag to minutes after midnight, as CPython
does it: PM adds 12 unless the hour is 12, 12 AM is hour 0. -/
def clock12 (h m p : Nat) : Nat := (h % 12 + 12 * p) * 60 + m

/-- Format `'%I:%M %p'`. -/
def fmtIMp (l : List Char) : Option Nat :=
  tryAlts (altI l) fun h l1 =>
    match l1 with
    | ':' :: l2 =>
      tryAlts (altM l2) fun m l3 =>
        match wsPlus l3 with
        | some l4 =>
          tryAlts (altP l4) fun p l5 =>
            if l5 = [] then some (clock12 h m p) else none
        | none => none
    | _ => none

/-- Format `'%I %p'`. -/
def fmtIp (l : List Char) : Option Nat :=
  tryAlts (altI l) fun h l1 =>
    match wsPlus l1 with
    | some l2 =>
      tryAlts (altP l2) fun p l3 =>
        if l3 = [] then some (clock12 h 0 p) else none
    | none => none

/-- Format `'%H:%M'`. -/
def fmtHM (l : List Char) : Option Nat :=
  tryAlts (altH l) fun h l1 =>
    match l1 with
    | ':' :: l2 =>
      tryAlts (altM l2) fun m l3 =>
        if l3 = [] then some (h * 60 + m) else none
    | _ => none

/-- Format `'%H'`. -/
def fmtH (l : List Char) : Option Nat :=
  tryAlts (altH l) fun h l1 => if l1 = [] then some (h * 60) else none

end Strptime

namespace Attendance

/-- Model of `parse_clock(val)` from `_within_schedule_window`: uppercase the token
and try the four formats in order; `None` when none matches.  The result is
the parsed clock time in minutes after midnight. -/
def parse_clock (val : List Char) : Option Nat :=
  let l := PyStr.upper val
  (Strptime.fmtIMp l).orElse fun _ =>
    (Strptime.fmtIp l).orElse fun _ =>
      (Strptime.fmtHM l).orElse fun _ => Strptime.fmtH l

/-- Model of `day_part_raw.split('-')[0].strip().upper()`, then
`{d.strip() for d in day_segment.replace(',', '/').split('/') if d.strip()}`
(kept as a list; only membership and emptiness are used). -/
def allowedDaysOf (dayPartRaw : List Char) : List (List Char) :=
  let daySegment :=
    PyStr.upper (PyStr.strip ((PyStr.splitOnChar '-' dayPartRaw).headD []))
  ((PyStr.splitOnChar '/' (PyStr.replaceChar ',' '/' daySegment)).map
    PyStr.strip).filter fun d => d ≠ []

/-- Model of `[t.strip() for t in time_part.replace('â€“', '-').split('-')]`. -/
def timeRangeOf (timePart : List Char) : List (List Char) :=
  (PyStr.splitOnChar '-' (PyStr.replaceDashSeq timePart)).map PyStr.strip

/-- Model of `SectionCourseDetailView._within_schedule_window(self, now)`, with
`schedule = self.object.schedule or ''`.  Parsing is forgiving: every
branch that cannot parse returns `True`; the only `False` outcomes are a
parsed day set missing today's weekday name, or a parsed clock range not
containing the current local time.  The Python body is wrapped in
`try/except Exception: return True`; the model below is total, and none of
the modelled operations raise, so the handler is dead code here. -/
def _within_schedule_window (schedule : String) (now : Int) : Bool :=
  let sched := PyStr.strip schedule.data
  if sched = [] then true
  else
    match (PyStr.splitOnChar '|' sched).map PyStr.strip with
    | dayPartRaw :: timePart :: _ =>
      let allowedDays := allowedDaysOf dayPartRaw
      if allowedDays = [] then true
      else
        let todayName := (weekdayName (localDate now)).data
        if todayName ∉ allowedDays then false
        else
          match timeRangeOf timePart with
          | [t0, t1] =>
            match parse_clock t0, parse_clock t1 with
            | some startT, some endT =>
              decide (startT ≤ minutesOfDay now ∧ minutesOfDay now ≤ endT)
            | _, _ => true
          | _ => true
    | _ => true

/-- Strip a Python string, as a `String`. -/
def stripS (s : String) : String := String.mk (PyStr.strip s.data)

/-- Model of `apps/attendance/models.py` `AttendanceRecord`, restricted to the
fields the marking view reads or writes.  `markedAt` is `auto_now_add`
(set once, at row creation); it is `Option` because `_lock_deadline`
guards `record.marked_at` for null. -/
structure AttendanceRecord where
  status : String
  markedBy : Option Nat
  notes : String
  markedAt : Option Int
  deriving DecidableEq

/-- Keys of `AttendanceRecord.AttendanceStatus.choices`. -/
def validStatuses : List String :=
  ["present", "absent", "late", "excused", "left_early"]

/-- Model of `apps/classes/models.py` `Session`, restricted to the fields this view
uses.  Clock fields are minutes after midnight. -/
structure Session where
  sessionNumber : Nat
  date : Int
  startTime : Nat
  endTime : Nat
  topic : String
  deriving DecidableEq

/-- Model of `apps/attendance/models.py` `AttendanceIssue`, restricted to the
fields `_handle_report_issue` sets (its `section_course` and `session`
foreign keys point at `self.object` and today's session). -/
structure AttendanceIssue where
  student : Nat
  claimedStatus : String
  note : String
  status : String
  deriving DecidableEq

/-- The requesting user: `role` is the role name, `none` when the user has
no role object. -/
structure User where
  id : Nat
  isSuperuser : Bool
  role : Option String
  deriving DecidableEq

/-- Model of `self.object`: the `SectionCourse` the view is bound to. -/
structure SectionCourse where
  instructorId : Option Nat
  schedule : String
  courseCode : String
  deriving DecidableEq

/-- Database state touched by the view: the shadow class's sessions in
creation order, attendance records keyed by (student id, session date)
(this view creates at most one session per date for the shadow class),
the existing user ids, and the reported issues. -/
structure ViewState where
  sessions : List Session
  records : Nat × Int → Option AttendanceRecord
  users : List Nat
  issues : List AttendanceIssue

/-- POST parameters; `none` models a missing (or empty, for the fields
checked with Python truthiness) parameter. -/
structure MarkRequest where
  action : Option String
  studentId : Option Nat
  statusVal : Option String
  note : Option String
  claimedStatus : Option String

/-- A `JsonResponse`, abstracted to its HTTP status code, its JSON
`status` field, and its `message` field (success payloads carry extra
fields and no message; we record the success message as `""` for marking
and as the literal message for issue submission). -/
structure JsonResponse where
  code : Nat
  status : String
  message : String
  deriving DecidableEq

/-- Model of `SectionCourseDetailView._get_or_create_today_session`: return the
existing session of the shadow class dated `today`, else create one
numbered `count + 1` running 06:00–23:59. -/
def _get_or_create_today_session (courseCode : String) (today : Int)
    (st : ViewState) : Session × ViewState :=
  match st.sessions.find? (fun s => s.date == today) with
  | some s => (s, st)
  | none =>
    let s : Session :=
      { sessionNumber := st.sessions.length + 1
        date := today
        startTime := 360
        endTime := 1439
        topic := "Attendance " ++ courseCode ++ " " ++ toString today }
    (s, { st with sessions := st.sessions ++ [s] })

/-- Model of `SectionCourseDetailView._open_time`: 06:00 on the session's date. -/
def _open_time (session : Session) : Int := combine session.date 360

/-- Model of `SectionCourseDetailView._lock_deadline`: `marked_at + 4h` when a
record with a `marked_at` is supplied, else the session end combined with
the session date. -/
def _lock_deadline (session : Session) (record : Option AttendanceRecord) :
    Int :=
  match record with
  | some r =>
    match r.markedAt with
    | some t => t + 240
    | none => combine session.date session.endTime
  | none => combine session.date session.endTime

/-- Model of `SectionCourseDetailView._report_deadline`: 8h after the
session-level lock deadline. -/
def _report_deadline (session : Session) : Int :=
  _lock_deadline session none + 480

/-- Model of `user.is_superuser or (role and role.name == 'admin')`. -/
def isAdminUser (u : User) : Bool :=
  u.isSuperuser || u.role == some "admin"

/-- Model of `SectionCourseDetailView._can_mark`. -/
def _can_mark (sc : SectionCourse) (u : User) : Bool :=
  if isAdminUser u then true
  else u.role == some "instructor" && sc.instructorId == some u.id

/-- The marking branch of `SectionCourseDetailView.post` (everything after
the `report_issue` dispatch), in the source's check order. -/
def postMark (sc : SectionCourse) (user : User) (req : MarkRequest)
    (now : Int) (st : ViewState) : JsonResponse × ViewState :=
  if ¬ _can_mark sc user then
    (⟨403, "error", "Not allowed"⟩, st)
  else
    match req.studentId, req.statusVal with
    | some sid, some statusVal =>
      if statusVal ∉ validStatuses then
        (⟨400, "error", "Invalid status"⟩, st)
      else
        let noteVal := stripS (req.note.getD "")
        let p := _get_or_create_today_session sc.courseCode (localDate now) st
        let session := p.1
        let st1 := p.2
        let isAdmin := isAdminUser user
        if now < _open_time session ∧ ¬ isAdmin then
          (⟨403, "error", "Attendance opens at 6:00 AM."⟩, st1)
        else if ¬ isAdmin ∧ ¬ _within_schedule_window sc.schedule now then
          (⟨403, "error",
            "Attendance can only be marked during the scheduled time."⟩, st1)
        else if sid ∉ st1.users then
          (⟨404, "error", "Student not found"⟩, st1)
        else
          let key := (sid, session.date)
          match st1.records key with
          | some r =>
            if ¬ isAdmin ∧ now > _lock_deadline session (some r) then
              (⟨403, "locked",
                "Attendance is locked for this student. Please contact admin."⟩,
               st1)
            else
              let r' :=
                { r with
                  status := statusVal
                  markedBy := some user.id
                  notes := noteVal }
              (⟨200, "success", ""⟩,
               { st1 with
                 records := fun k => if k = key then some r' else st1.records k })
          | none =>
            let r' : AttendanceRecord :=
              { status := statusVal
                markedBy := some user.id
                notes := noteVal
                markedAt := some now }
            (⟨200, "success", ""⟩,
             { st1 with
               records := fun k => if k = key then some r' else st1.records k })
    | _, _ =>
      (⟨400, "error", "student_id and status are required"⟩, st)

/-- Model of `SectionCourseDetailView._handle_report_issue`, in the source's check
order; the created issue takes the model's default status `'pending'`. -/
def _handle_report_issue (sc : SectionCourse) (user : User)
    (req : MarkRequest) (now : Int) (st : ViewState) :
    JsonResponse × ViewState :=
  if ¬ (user.role == some "student") then
    (⟨403, "error", "Only students can report issues."⟩, st)
  else
    let p := _get_or_create_today_session sc.courseCode (localDate now) st
    let session := p.1
    let st1 := p.2
    let lockDeadline := _lock_deadline session none
    let reportDeadline := _report_deadline session
    if now < lockDeadline then
      (⟨400, "error", "Reporting opens after attendance is locked."⟩, st1)
    else if now > reportDeadline then
      (⟨403, "error", "Reporting window has closed."⟩, st1)
    else
      match req.claimedStatus with
      | some cs =>
        if cs ∉ validStatuses then
          (⟨400, "error", "Invalid claimed status."⟩, st1)
        else
          let issue : AttendanceIssue :=
            { student := user.id
              claimedStatus := cs
              note := stripS (req.note.getD "")
              status := "pending" }
          (⟨200, "success",
            "Issue submitted. Admin will review and coordinate with the instructor."⟩,
           { st1 with issues := st1.issues ++ [issue] })
      | none => (⟨400, "error", "Invalid claimed status."⟩, st1)

/-- Model of `SectionCourseDetailView.post`: dispatch on `action`. -/
def post (sc : SectionCourse) (user : User) (req : MarkRequest) (now : Int)
    (st : ViewState) : JsonResponse × ViewState :=
  if req.action == some "report_issue" then
    _handle_report_issue sc user req now st
  else
    postMark sc user req now st

/-- The student branch of `get_context_data`'s per-user report window:
`report_window_open = user_record is not None and now >= user_lock_deadline
and now <= user_report_deadline`, with the deadlines computed from the
student's own record. -/
def report_window_open_student (session : Session)
    (userRecord : Option AttendanceRecord) (now : Int) : Bool :=
  let userLock := _lock_deadline session userRecord
  let userReport := userLock + 480
  userRecord.isSome && decide (userLock ≤ now) && decide (now ≤ userReport)

/-! ### Concrete fixtures used by witnesses and counterexamples -/

/-- A section-course taught by user 2, scheduled Tuesday/Thursday with a
clock window parsing to 01:30–15:00 (the left token `"1:30"` only matches
`'%H:%M'`). -/
def scEx : SectionCourse :=
  { instructorId := some 2
    courseCode := "CS101"
    schedule := "TUESDAY/THURSDAY - AFTERNOON | 1:30 - 3:00 PM | B-202" }

def instrEx : User := { id := 2, isSuperuser := false, role := some "instructor" }

def studentEx : User := { id := 7, isSuperuser := false, role := some "student" }

def adminEx : User := { id := 3, isSuperuser := false, role := some "admin" }

/-- A record for student 7, marked at minute 400 (06:40 on day 0). -/
def recEx : AttendanceRecord :=
  { status := "present", markedBy := some 2, notes := "", markedAt := some 400 }

/-- Today's (day 0, a Thursday) session, 06:00–23:59. -/
def sessEx : Session :=
  { sessionNumber := 1, date := 0, startTime := 360, endTime := 1439
    topic := "Attendance CS101 0" }

def stEx : ViewState :=
  { sessions := [sessEx]
    records := fun k => if k = (7, 0) then some recEx else none
    users := [7, 2, 3]
    issues := [] }

/-- A plain marking request for student 7. -/
def reqMarkEx : MarkRequest :=
  { action := none, studentId := some 7, statusVal := some "absent"
    note := none, claimedStatus := none }

/-- A report-issue request. -/
def reqReportEx : MarkRequest :=
  { action := some "report_issue", studentId := none, statusVal := none
    note := some " was present ", claimedStatus := some "present" }

/-! ### Helper lemmas about `_get_or_create_today_session` -/

theorem gotss_date (cc : String) (today : Int) (st : ViewState) :
    (_get_or_create_today_session cc today st).1.date = today := by
  unfold _get_or_create_today_session
  cases h : st.sessions.find? (fun s => s.date == today) with
  | none => simp
  | some s =>
    have hp := List.find?_some h
    simpa using hp

theorem gotss_records (cc : String) (today : Int) (st : ViewState) :
    (_get_or_create_today_session cc today st).2.records = st.records := by
  unfold _get_or_create_today_session
  cases st.sessions.find? (fun s => s.date == today) <;> simp

theorem gotss_users (cc : String) (today : Int) (st : ViewState) :
    (_get_or_create_today_session cc today st).2.users = st.users := by
  unfold _get_or_create_today_session
  cases st.sessions.find? (fun s => s.date == today) <;> simp

theorem gotss_issues (cc : String) (today : Int) (st : ViewState) :
    (_get_or_create_today_session cc today st).2.issues = st.issues := by
  unfold _get_or_create_today_session
  cases st.sessions.find? (fun s => s.date == today) <;> simp

theorem open_time_gotss (cc : String) (today : Int) (st : ViewState) :
    _open_time (_get_or_create_today_session cc today st).1 = combine today 360 := by
  rw [_open_time, gotss_date]

/-! ### Helper lemmas about `postMark` -/

theorem can_mark_of_admin (sc : SectionCourse) (u : User)
    (hadmin : isAdminUser u = true) : _can_mark sc u = true := by
  simp [_can_mark, hadmin]

/-- A superuser or admin-role user with a valid student and status always
reaches the update-or-create branch: the response is a success and the
record for (student, today) is written with the requested status, the
marker, and the stripped note, preserving `marked_at` on update and
setting it to `now` on creation. -/
theorem postMark_admin_success (sc : SectionCourse) (u : User)
    (req : MarkRequest) (now : Int) (st : ViewState) (sid : Nat) (sv : String)
    (hadmin : isAdminUser u = true)
    (hsid : req.studentId = some sid) (hsv : req.statusVal = some sv)
    (hvalid : sv ∈ validStatuses) (husers : sid ∈ st.users) :
    (postMark sc u req now st).1.status = "success" ∧
    (postMark sc u req now st).2.records (sid, localDate now) =
      some (match st.records (sid, localDate now) with
        | some r =>
          { r with
            status := sv
            markedBy := some u.id
            notes := stripS (req.note.getD "") }
        | none =>
          { status := sv
            markedBy := some u.id
            notes := stripS (req.note.getD "")
            markedAt := some now }) := by
  have hcm := can_mark_of_admin sc u hadmin
  unfold postMark
  rw [hsid, hsv]
  simp only [hcm, hadmin, hvalid, husers, gotss_users, gotss_records,
    gotss_date, open_time_gotss]
  cases hrec : st.records (sid, localDate now) <;>
    simp [hrec]

/-! ### Claim theorems -/

/-- C1: for every session and every record with a `marked_at` timestamp,
`_lock_deadline` is `marked_at` plus 4 hours; with no record, or a record
without `marked_at`, it is the session's `end_time` combined with the
session's date (made aware in the current timezone). -/
theorem C1_lock_deadline (s : Session) (r r' : AttendanceRecord) (t : Int)
    (h : r.markedAt = some t) (h' : r'.markedAt = none) :
    _lock_deadline s (some r) = t + 4 * 60 ∧
    _lock_deadline s none = combine s.date s.endTime ∧
    _lock_deadline s (some r') = combine s.date s.endTime := by
  refine ⟨?_, rfl, ?_⟩
  · norm_num [_lock_deadline, h]
  · simp [_lock_deadline, h']

theorem C1_witness :
    _lock_deadline sessEx (some recEx) = 400 + 4 * 60 ∧
    _lock_deadline sessEx none = combine sessEx.date sessEx.endTime ∧
    _lock_deadline sessEx (some { recEx with markedAt := none }) =
      combine sessEx.date sessEx.endTime :=
  C1_lock_deadline sessEx recEx _ 400 (by decide) (by decide)

/-- C2: for every session, the dispute-reporting deadline equals the
session's record-free lock deadline plus 8 hours. -/
theorem C2_report_deadline (s : Session) :
    _report_deadline s = _lock_deadline s none + 8 * 60 := by
  norm_num [_report_deadline]

/-- C6: `_get_or_create_today_session` returns a session dated today: an
existing one is returned with the state unchanged; otherwise exactly one
is created with `start_time` 06:00, `end_time` 23:59 and `session_number`
one more than the number of existing sessions of the class; repeated
calls on the same day return the same single session. -/
theorem C6_daily_session (cc : String) (today : Int) (st : ViewState) :
    (_get_or_create_today_session cc today st).1.date = today ∧
    (∀ s, st.sessions.find? (fun x => x.date == today) = some s →
      _get_or_create_today_session cc today st = (s, st)) ∧
    (st.sessions.find? (fun x => x.date == today) = none →
      (_get_or_create_today_session cc today st).1.startTime = 360 ∧
      (_get_or_create_today_session cc today st).1.endTime = 1439 ∧
      (_get_or_create_today_session cc today st).1.sessionNumber =
        st.sessions.length + 1 ∧
      (_get_or_create_today_session cc today st).2.sessions =
        st.sessions ++ [(_get_or_create_today_session cc today st).1]) ∧
    _get_or_create_today_session cc today
        (_get_or_create_today_session cc today st).2 =
      ((_get_or_create_today_session cc today st).1,
       (_get_or_create_today_session cc today st).2) := by
  refine ⟨gotss_date cc today st, ?_, ?_, ?_⟩
  · intro s h
    unfold _get_or_create_today_session
    rw [h]
  · intro h
    unfold _get_or_create_today_session
    rw [h]
    simp
  · cases h : st.sessions.find? (fun x => x.date == today) with
    | some s =>
      have h1 : _get_or_create_today_session cc today st = (s, st) := by
        unfold _get_or_create_today_session
        rw [h]
      rw [h1]
      exact h1
    | none =>
      have h1 : _get_or_create_today_session cc today st =
          ({ sessionNumber := st.sessions.length + 1, date := today
             startTime := 360, endTime := 1439
             topic := "Attendance " ++ cc ++ " " ++ toString today },
           { st with sessions := st.sessions ++
              [{ sessionNumber := st.sessions.length + 1, date := today
                 startTime := 360, endTime := 1439
                 topic := "Attendance " ++ cc ++ " " ++ toString today }] }) := by
        unfold _get_or_create_today_session
        rw [h]
      rw [h1]
      unfold _get_or_create_today_session
      rw [show ({ st with sessions := st.sessions ++
          [{ sessionNumber := st.sessions.length + 1, date := today
             startTime := 360, endTime := 1439
             topic := "Attendance " ++ cc ++ " " ++ toString today }] } :
            ViewState).sessions = st.sessions ++
          [{ sessionNumber := st.sessions.length + 1, date := today
             startTime := 360, endTime := 1439
             topic := "Attendance " ++ cc ++ " " ++ toString today }] from rfl,
        List.find?_append, h]
      simp [List.find?]

/-- C3 as stated is false: with an existing record past its lock deadline
(`marked_at = 400`, lock 640), a marking POST by a student — neither
superuser nor admin — returns status `error` (`Not allowed`), not
`locked`; and one by the instructor outside the schedule window (16:00,
window 01:30–15:00) returns the schedule rejection, not `locked`. -/
theorem C3_counterexample :
    stEx.records (7, localDate 810) = some recEx ∧
    recEx.markedAt = some 400 ∧
    studentEx.isSuperuser = false ∧ studentEx.role ≠ some "admin" ∧
    (810 : Int) > 400 + 4 * 60 ∧
    (post scEx studentEx reqMarkEx 810 stEx).1.status ≠ "locked" ∧
    instrEx.isSuperuser = false ∧ instrEx.role ≠ some "admin" ∧
    (960 : Int) > 400 + 4 * 60 ∧
    (post scEx instrEx reqMarkEx 960 stEx).1.status ≠ "locked" := by
  decide

/-- C3 (amended): for every marking POST that passes the permission,
input-validation, opening-time and schedule-window gates, by a user who is
neither superuser nor admin: when a record already exists for (student,
today's session) and now is strictly past `marked_at + 4h`, the request
returns HTTP 403 with status `locked` and the records are unchanged; a
superuser or admin-role user with the same request updates the record's
status, `marked_by` and notes even past the lock deadline. -/
theorem C3_lock_enforcement (sc : SectionCourse) (user adminU : User)
    (req : MarkRequest) (now t : Int) (st : ViewState) (sid : Nat)
    (sv : String) (r : AttendanceRecord)
    (hact : req.action ≠ some "report_issue")
    (hmark : _can_mark sc user = true)
    (hnotadmin : isAdminUser user = false)
    (hsid : req.studentId = some sid) (hsv : req.statusVal = some sv)
    (hvalid : sv ∈ validStatuses)
    (hopen : ¬ now < combine (localDate now) 360)
    (hwindow : _within_schedule_window sc.schedule now = true)
    (husers : sid ∈ st.users)
    (hrec : st.records (sid, localDate now) = some r)
    (hmarked : r.markedAt = some t)
    (hlock : now > t + 4 * 60)
    (hadmin : isAdminUser adminU = true) :
    (post sc user req now st).1 =
      ⟨403, "locked",
       "Attendance is locked for this student. Please contact admin."⟩ ∧
    (post sc user req now st).2.records = st.records ∧
    (post sc adminU req now st).1.status = "success" ∧
    (post sc adminU req now st).2.records (sid, localDate now) =
      some { r with
             status := sv
             markedBy := some adminU.id
             notes := stripS (req.note.getD "") } := by
  have hdispatch : ∀ u, post sc u req now st = postMark sc u req now st := by
    intro u
    unfold post
    simp [hact]
  have hlock' : now > t + 240 := by linarith
  have key : (postMark sc user req now st).1 =
      ⟨403, "locked",
       "Attendance is locked for this student. Please contact admin."⟩ ∧
      (postMark sc user req now st).2.records = st.records := by
    unfold postMark
    rw [hsid, hsv]
    simp [hmark, hnotadmin, hvalid, open_time_gotss, hopen, hwindow,
      gotss_records, gotss_users, gotss_date, husers, hrec, _lock_deadline,
      hmarked, hlock']
  have hadm := postMark_admin_success sc adminU req now st sid sv hadmin hsid
    hsv hvalid husers
  rw [hrec] at hadm
  refine ⟨?_, ?_, ?_, ?_⟩
  · rw [hdispatch]
    exact key.1
  · rw [hdispatch]
    exact key.2
  · rw [hdispatch]
    exact hadm.1
  · rw [hdispatch]
    exact hadm.2

theorem C3_witness :
    (post scEx instrEx reqMarkEx 810 stEx).1 =
      ⟨403, "locked",
       "Attendance is locked for this student. Please contact admin."⟩ ∧
    (post scEx instrEx reqMarkEx 810 stEx).2.records = stEx.records ∧
    (post scEx adminEx reqMarkEx 810 stEx).1.status = "success" ∧
    (post scEx adminEx reqMarkEx 810 stEx).2.records (7, localDate 810) =
      some { recEx with
             status := "absent"
             markedBy := some adminEx.id
             notes := stripS (reqMarkEx.note.getD "") } :=
  C3_lock_enforcement scEx instrEx adminEx reqMarkEx 810 400 stEx 7 "absent"
    recEx (by decide) (by decide) (by decide) rfl rfl (by decide) (by decide)
    (by decide) (by decide) (by decide) (by decide) (by decide) (by decide)

/-- C5 as stated is false: outside the schedule window (16:00, window
01:30–15:00) a student's marking POST is rejected as `Not allowed`, and
the instructor's POST at 00:50 — also outside the window — is rejected
with the opening-time message; neither carries the schedule message. -/
theorem C5_counterexample :
    _within_schedule_window scEx.schedule 960 = false ∧
    studentEx.isSuperuser = false ∧ studentEx.role ≠ some "admin" ∧
    (post scEx studentEx reqMarkEx 960 stEx).1.message ≠
      "Attendance can only be marked during the scheduled time." ∧
    _within_schedule_window scEx.schedule 50 = false ∧
    instrEx.isSuperuser = false ∧ instrEx.role ≠ some "admin" ∧
    (post scEx instrEx reqMarkEx 50 stEx).1.message ≠
      "Attendance can only be marked during the scheduled time." := by
  decide

/-- C5 (amended): for every marking POST by a non-superuser, non-admin
user who passes the permission check, supplies valid inputs, and is at or
after the opening time: if the schedule window check fails (day set
without today, or clock range without the current time), the request is
rejected with HTTP 403 and the schedule message, with records unchanged;
a superuser or admin-role user with a valid request succeeds regardless of
the schedule window. -/
theorem C5_schedule_window (sc : SectionCourse) (user adminU : User)
    (req : MarkRequest) (now : Int) (st : ViewState) (sid : Nat) (sv : String)
    (hact : req.action ≠ some "report_issue")
    (hmark : _can_mark sc user = true)
    (hnotadmin : isAdminUser user = false)
    (hsid : req.studentId = some sid) (hsv : req.statusVal = some sv)
    (hvalid : sv ∈ validStatuses)
    (hopen : ¬ now < combine (localDate now) 360)
    (hwindow : _within_schedule_window sc.schedule now = false)
    (hadmin : isAdminUser adminU = true)
    (husers : sid ∈ st.users) :
    (post sc user req now st).1 =
      ⟨403, "error",
       "Attendance can only be marked during the scheduled time."⟩ ∧
    (post sc user req now st).2.records = st.records ∧
    (post sc adminU req now st).1.status = "success" := by
  have hdispatch : ∀ u, post sc u req now st = postMark sc u req now st := by
    intro u
    unfold post
    simp [hact]
  have key : (postMark sc user req now st).1 =
      ⟨403, "error",
       "Attendance can only be marked during the scheduled time."⟩ ∧
      (postMark sc user req now st).2.records = st.records := by
    unfold postMark
    rw [hsid, hsv]
    simp [hmark, hnotadmin, hvalid, open_time_gotss, hopen, hwindow,
      gotss_records]
  refine ⟨?_, ?_, ?_⟩
  · rw [hdispatch]
    exact key.1
  · rw [hdispatch]
    exact key.2
  · rw [hdispatch]
    exact (postMark_admin_success sc adminU req now st sid sv hadmin hsid hsv
      hvalid husers).1

theorem C5_witness :
    (post scEx instrEx reqMarkEx 960 stEx).1 =
      ⟨403, "error",
       "Attendance can only be marked during the scheduled time."⟩ ∧
    (post scEx instrEx reqMarkEx 960 stEx).2.records = stEx.records ∧
    (post scEx adminEx reqMarkEx 960 stEx).1.status = "success" :=
  C5_schedule_window scEx instrEx adminEx reqMarkEx 960 stEx 7 "absent"
    (by decide) (by decide) (by decide) rfl rfl (by decide) (by decide)
    (by decide) (by decide) (by decide)

/-- C4 as stated is false: a marking POST before 06:00 by a student (who
is neither a superuser nor admin) is rejected as `Not allowed`, and one by
the instructor with a missing `student_id` is rejected with a 400, neither
carrying the message `'Attendance opens at 6:00 AM.'`. -/
theorem C4_counterexample :
    studentEx.isSuperuser = false ∧ studentEx.role ≠ some "admin" ∧
    instrEx.isSuperuser = false ∧ instrEx.role ≠ some "admin" ∧
    (100 : Int) < combine (localDate 100) 360 ∧
    (post scEx studentEx reqMarkEx 100 stEx).1.message ≠
      "Attendance opens at 6:00 AM." ∧
    (post scEx instrEx { reqMarkEx with studentId := none } 100 stEx).1.message ≠
      "Attendance opens at 6:00 AM." := by
  decide

/-- C4 (amended): for every marking POST by a non-superuser, non-admin
user who passes the permission check and supplies a valid `student_id` and
status, a request before 06:00 on the session date is rejected with HTTP
403 and message `'Attendance opens at 6:00 AM.'`, with no attendance
record created or updated; a superuser or admin-role user with a valid
request marks successfully before 06:00. -/
theorem C4_open_time (sc : SectionCourse) (user adminU : User)
    (req : MarkRequest) (now : Int) (st : ViewState) (sid : Nat) (sv : String)
    (hact : req.action ≠ some "report_issue")
    (hmark : _can_mark sc user = true)
    (hnotadmin : isAdminUser user = false)
    (hsid : req.studentId = some sid) (hsv : req.statusVal = some sv)
    (hvalid : sv ∈ validStatuses)
    (hopen : now < combine (localDate now) 360)
    (hadmin : isAdminUser adminU = true)
    (husers : sid ∈ st.users) :
    (post sc user req now st).1 =
      ⟨403, "error", "Attendance opens at 6:00 AM."⟩ ∧
    (post sc user req now st).2.records = st.records ∧
    (post sc adminU req now st).1.status = "success" := by
  have hdispatch : ∀ u, post sc u req now st = postMark sc u req now st := by
    intro u
    unfold post
    simp [hact]
  have key : (postMark sc user req now st).1 =
      ⟨403, "error", "Attendance opens at 6:00 AM."⟩ ∧
      (postMark sc user req now st).2.records = st.records := by
    unfold postMark
    rw [hsid, hsv]
    simp [hmark, hnotadmin, hvalid, open_time_gotss, hopen, gotss_records]
  refine ⟨?_, ?_, ?_⟩
  · rw [hdispatch]
    exact key.1
  · rw [hdispatch]
    exact key.2
  · rw [hdispatch]
    exact (postMark_admin_success sc adminU req now st sid sv hadmin hsid hsv
      hvalid husers).1

theorem C4_witness :
    (post scEx instrEx reqMarkEx 100 stEx).1 =
      ⟨403, "error", "Attendance opens at 6:00 AM."⟩ ∧
    (post scEx instrEx reqMarkEx 100 stEx).2.records = stEx.records ∧
    (post scEx adminEx reqMarkEx 100 stEx).1.status = "success" :=
  C4_open_time scEx instrEx adminEx reqMarkEx 100 stEx 7 "absent"
    (by decide) (by decide) (by decide) rfl rfl (by decide) (by decide)
    (by decide) (by decide)

theorem C6_witness :
    (_get_or_create_today_session "CS101" 0 stEx).1.date = 0 ∧
    _get_or_create_today_session "CS101" 0 stEx = (sessEx, stEx) := by
  have h := C6_daily_session "CS101" 0 stEx
  exact ⟨h.1, h.2.1 sessEx (by decide)⟩

/-- C7: the `report_issue` gates, in source order: a non-student role is
rejected 403; a student before the session-level lock deadline gets 400
`'Reporting opens after attendance is locked.'`; after the report deadline,
403 `'Reporting window has closed.'`; an invalid (or missing)
`claimed_status` gets 400; only when every check passes is an
`AttendanceIssue` appended, with the model's default status `'pending'`. -/
theorem C7_report_issue_gates (sc : SectionCourse) (user : User)
    (req : MarkRequest) (now : Int) (st : ViewState)
    (hact : req.action = some "report_issue") :
    (user.role ≠ some "student" →
      (post sc user req now st).1 =
        ⟨403, "error", "Only students can report issues."⟩ ∧
      (post sc user req now st).2.issues = st.issues) ∧
    (user.role = some "student" →
      now < _lock_deadline
        (_get_or_create_today_session sc.courseCode (localDate now) st).1 none →
      (post sc user req now st).1 =
        ⟨400, "error", "Reporting opens after attendance is locked."⟩ ∧
      (post sc user req now st).2.issues = st.issues) ∧
    (user.role = some "student" →
      now > _report_deadline
        (_get_or_create_today_session sc.courseCode (localDate now) st).1 →
      (post sc user req now st).1 =
        ⟨403, "error", "Reporting window has closed."⟩ ∧
      (post sc user req now st).2.issues = st.issues) ∧
    (user.role = some "student" →
      _lock_deadline
        (_get_or_create_today_session sc.courseCode (localDate now) st).1 none ≤
        now →
      now ≤ _report_deadline
        (_get_or_create_today_session sc.courseCode (localDate now) st).1 →
      (match req.claimedStatus with
       | some cs => cs ∉ validStatuses
       | none => True) →
      (post sc user req now st).1 =
        ⟨400, "error", "Invalid claimed status."⟩ ∧
      (post sc user req now st).2.issues = st.issues) ∧
    (∀ cs, user.role = some "student" →
      _lock_deadline
        (_get_or_create_today_session sc.courseCode (localDate now) st).1 none ≤
        now →
      now ≤ _report_deadline
        (_get_or_create_today_session sc.courseCode (localDate now) st).1 →
      req.claimedStatus = some cs → cs ∈ validStatuses →
      (post sc user req now st).1.status = "success" ∧
      (post sc user req now st).2.issues = st.issues ++
        [{ student := user.id
           claimedStatus := cs
           note := stripS (req.note.getD "")
           status := "pending" }]) := by
  have hdispatch : post sc user req now st =
      _handle_report_issue sc user req now st := by
    unfold post
    simp [hact]
  rw [hdispatch]
  refine ⟨?_, ?_, ?_, ?_, ?_⟩
  · intro hrole
    unfold _handle_report_issue
    simp [hrole]
  · intro hrole hlt
    unfold _handle_report_issue
    simp [hrole, hlt, gotss_issues]
  · intro hrole hgt
    have hge : ¬ now < _lock_deadline
        (_get_or_create_today_session sc.courseCode (localDate now) st).1
        none := by
      unfold _report_deadline at hgt
      omega
    unfold _handle_report_issue
    simp [hrole, hge, hgt, gotss_issues]
  · intro hrole hge hle hbad
    have hge' : ¬ now < _lock_deadline
        (_get_or_create_today_session sc.courseCode (localDate now) st).1
        none := not_lt.mpr hge
    have hle' : ¬ now > _report_deadline
        (_get_or_create_today_session sc.courseCode (localDate now) st).1 :=
      not_lt.mpr hle
    unfold _handle_report_issue
    cases hcs : req.claimedStatus with
    | none => simp [hrole, hge', hle', hcs, gotss_issues]
    | some cs =>
      rw [hcs] at hbad
      simp [hrole, hge', hle', hcs, hbad, gotss_issues]
  · intro cs hrole hge hle hcs hok
    have hge' : ¬ now < _lock_deadline
        (_get_or_create_today_session sc.courseCode (localDate now) st).1
        none := not_lt.mpr hge
    have hle' : ¬ now > _report_deadline
        (_get_or_create_today_session sc.courseCode (localDate now) st).1 :=
      not_lt.mpr hle
    unfold _handle_report_issue
    simp [hrole, hge', hle', hcs, hok, gotss_issues]

theorem C7_witness :
    (post scEx studentEx reqReportEx 1439 stEx).1.status = "success" ∧
    (post scEx studentEx reqReportEx 1439 stEx).2.issues = stEx.issues ++
      [{ student := studentEx.id
         claimedStatus := "present"
         note := stripS (reqReportEx.note.getD "")
         status := "pending" }] :=
  (C7_report_issue_gates scEx studentEx reqReportEx 1439 stEx rfl).2.2.2.2
    "present" rfl (by decide) (by decide) rfl (by decide)

/-- C8 as stated is false: the fail-open outcomes for an unparseable time
part only apply after the day check, which runs first and returns `False`.
`"MONDAY | 1:30"` has a time part that does not split into two tokens —
per the claim the check should return `True` — yet on a Tuesday
(minute 7200 is day 5, a Tuesday) the function returns `False`. -/
theorem C8_counterexample :
    (timeRangeOf (PyStr.strip "1:30".data)).length ≠ 2 ∧
    weekdayName (localDate 7200) = "TUESDAY" ∧
    _within_schedule_window "MONDAY | 1:30" 7200 = false := by
  decide

/-- C8 (amended): the schedule-window check is total and fail-open in
every unparseable case that is reached: an empty schedule, fewer than two
`'|'` segments, or an empty parsed day set always yield `True`; and when
today's weekday is in the parsed day set, a time part that does not split
into exactly two tokens, or a clock token matching none of the accepted
formats, also yields `True`.  (When today's weekday is *not* in a
non-empty parsed day set the check returns `False` before looking at the
time part.)  The model is a total function, mirroring the blanket
`except Exception: return True`. -/
theorem C8_fail_open (schedule : String) (now : Int) :
    (PyStr.strip schedule.data = [] →
      _within_schedule_window schedule now = true) ∧
    (((PyStr.splitOnChar '|' (PyStr.strip schedule.data)).map
        PyStr.strip).length < 2 →
      _within_schedule_window schedule now = true) ∧
    (∀ p0 p1 rest,
      (PyStr.splitOnChar '|' (PyStr.strip schedule.data)).map PyStr.strip =
        p0 :: p1 :: rest →
      (allowedDaysOf p0 = [] → _within_schedule_window schedule now = true) ∧
      ((weekdayName (localDate now)).data ∈ allowedDaysOf p0 →
        ((timeRangeOf p1).length ≠ 2 →
          _within_schedule_window schedule now = true) ∧
        (∀ t0 t1, timeRangeOf p1 = [t0, t1] →
          parse_clock t0 = none ∨ parse_clock t1 = none →
          _within_schedule_window schedule now = true))) := by
  refine ⟨?_, ?_, ?_⟩
  · intro h
    simp [_within_schedule_window, h]
  · intro h
    by_cases hs : PyStr.strip schedule.data = []
    · simp [_within_schedule_window, hs]
    · cases hl : (PyStr.splitOnChar '|' (PyStr.strip schedule.data)).map
          PyStr.strip with
      | nil => simp [_within_schedule_window, hs, hl]
      | cons a l =>
        cases l with
        | nil => simp [_within_schedule_window, hs, hl]
        | cons b l2 =>
          rw [hl] at h
          simp at h
          omega
  · intro p0 p1 rest hl
    have hs : PyStr.strip schedule.data ≠ [] := by
      intro hnil
      rw [hnil] at hl
      simp [PyStr.splitOnChar, PyStr.strip] at hl
    refine ⟨?_, ?_⟩
    · intro hdays
      simp [_within_schedule_window, hs, hl, hdays]
    · intro hmem
      have hne : allowedDaysOf p0 ≠ [] := List.ne_nil_of_mem hmem
      refine ⟨?_, ?_⟩
      · intro hlen
        cases ht : timeRangeOf p1 with
        | nil => simp [_within_schedule_window, hs, hl, hne, hmem, ht]
        | cons t0 l =>
          cases l with
          | nil => simp [_within_schedule_window, hs, hl, hne, hmem, ht]
          | cons t1 l2 =>
            cases l2 with
            | nil =>
              rw [ht] at hlen
              simp at hlen
            | cons t2 l3 =>
              simp [_within_schedule_window, hs, hl, hne, hmem, ht]
      · intro t0 t1 ht hnone
        rcases hnone with h0 | h0
        · simp [_within_schedule_window, hs, hl, hne, hmem, ht, h0]
        · cases hp0 : parse_clock t0 <;>
            simp [_within_schedule_window, hs, hl, hne, hmem, ht, h0, hp0]

theorem C8_witness :
    _within_schedule_window "" 810 = true ∧
    _within_schedule_window "just one segment" 810 = true ∧
    _within_schedule_window " , | 1:30 - 3:00 PM" 810 = true ∧
    _within_schedule_window "THURSDAY | 1:30 - 2 - 3" 810 = true ∧
    _within_schedule_window "THURSDAY | foo - bar" 810 = true := by
  refine ⟨(C8_fail_open "" 810).1 (by decide), ?_, ?_, ?_, ?_⟩
  · exact (C8_fail_open "just one segment" 810).2.1 (by decide)
  · exact (((C8_fail_open " , | 1:30 - 3:00 PM" 810).2.2 ",".data
      "1:30 - 3:00 PM".data [] (by decide)).1 (by decide))
  · exact ((((C8_fail_open "THURSDAY | 1:30 - 2 - 3" 810).2.2 "THURSDAY".data
      "1:30 - 2 - 3".data [] (by decide)).2 (by decide)).1 (by decide))
  · exact ((((C8_fail_open "THURSDAY | foo - bar" 810).2.2 "THURSDAY".data
      "foo - bar".data [] (by decide)).2 (by decide)).2 "foo".data "bar".data
      (by decide) (Or.inl (by decide)))

/-- C9: re-marking an existing (student, session) record through a
successful marking POST rewrites only `status`, `marked_by` and `notes`;
`marked_at` (set only at creation, `auto_now_add`) keeps its original
value, so the record's lock deadline is unchanged by the re-mark. -/
theorem C9_marked_at_immutable (sc : SectionCourse) (user : User)
    (req : MarkRequest) (now : Int) (st : ViewState) (sid : Nat)
    (sv : String) (r : AttendanceRecord) (s0 : Session)
    (hact : req.action ≠ some "report_issue")
    (hsid : req.studentId = some sid) (hsv : req.statusVal = some sv)
    (hrec : st.records (sid, localDate now) = some r)
    (hsucc : (post sc user req now st).1.status = "success") :
    (post sc user req now st).2.records (sid, localDate now) =
      some { r with
             status := sv
             markedBy := some user.id
             notes := stripS (req.note.getD "") } ∧
    _lock_deadline s0 ((post sc user req now st).2.records
        (sid, localDate now)) =
      _lock_deadline s0 (some r) := by
  have hdispatch : post sc user req now st = postMark sc user req now st := by
    unfold post
    simp [hact]
  have Hrec : (post sc user req now st).2.records (sid, localDate now) =
      some { r with
             status := sv
             markedBy := some user.id
             notes := stripS (req.note.getD "") } := by
    rw [hdispatch] at hsucc ⊢
    unfold postMark at hsucc ⊢
    rw [hsid, hsv] at hsucc ⊢
    simp only [open_time_gotss, gotss_records, gotss_users, gotss_date]
      at hsucc ⊢
    by_cases h1 : _can_mark sc user = true
    swap
    · simp [h1] at hsucc
    by_cases h2 : sv ∈ validStatuses
    swap
    · simp [h1, h2] at hsucc
    by_cases h3 : now < combine (localDate now) 360 ∧ isAdminUser user = false
    · simp [h1, h2, h3] at hsucc
    by_cases h4 : isAdminUser user = false ∧
        _within_schedule_window sc.schedule now = false
    · have hnlt : ¬ now < combine (localDate now) 360 := fun hl => h3 ⟨hl, h4.1⟩
      simp [h1, h2, hnlt, h4.1, h4.2] at hsucc
    by_cases h5 : sid ∈ st.users
    swap
    · simp [h1, h2, h3, h4, h5] at hsucc
    by_cases h6 : isAdminUser user = false ∧
        now > _lock_deadline
          (_get_or_create_today_session sc.courseCode (localDate now) st).1
          (some r)
    · have hnlt : ¬ now < combine (localDate now) 360 :=
        fun hl => h3 ⟨hl, h6.1⟩
      have hw : _within_schedule_window sc.schedule now = true := by
        rcases Bool.eq_false_or_eq_true
          (_within_schedule_window sc.schedule now) with ht | hf
        · exact ht
        · exact absurd ⟨h6.1, hf⟩ h4
      simp [h1, h2, hnlt, hw, h5, hrec, h6] at hsucc
    · simp [h1, h2, h3, h4, h5, hrec, h6]
  refine ⟨Hrec, ?_⟩
  rw [Hrec]
  rfl

theorem C9_witness :
    (post scEx instrEx reqMarkEx 500 stEx).2.records (7, localDate 500) =
      some { recEx with
             status := "absent"
             markedBy := some instrEx.id
             notes := stripS (reqMarkEx.note.getD "") } ∧
    _lock_deadline sessEx ((post scEx instrEx reqMarkEx 500 stEx).2.records
        (7, localDate 500)) =
      _lock_deadline sessEx (some recEx) :=
  C9_marked_at_immutable scEx instrEx reqMarkEx 500 stEx 7 "absent" recEx
    sessEx (by decide) rfl rfl (by decide) (by decide)

/-- C10: `_handle_report_issue` computes its gate from the session alone —
its response is independent of the attendance records — so a student whose
personal per-record lock (`marked_at + 4h`) has passed is still rejected
with `'Reporting opens after attendance is locked.'` at any time before
the session-end lock deadline, even while `get_context_data` computes that
student's report window from their own record and shows it as open. -/
theorem C10_report_gate_session_only (sc : SectionCourse) (user : User)
    (req : MarkRequest) (now t : Int) (st : ViewState) (session : Session)
    (rec : AttendanceRecord)
    (f : (Nat × Int) → Option AttendanceRecord)
    (hact : req.action = some "report_issue")
    (hrole : user.role = some "student")
    (hfind : st.sessions.find? (fun s => s.date == localDate now) =
      some session)
    (hmark : rec.markedAt = some t)
    (hpersonal : t + 4 * 60 ≤ now)
    (hwin : now ≤ t + 12 * 60)
    (hbefore : now < combine session.date session.endTime) :
    (post sc user req now { st with records := f }).1 =
      (post sc user req now st).1 ∧
    _lock_deadline session none = combine session.date session.endTime ∧
    (post sc user req now st).1 =
      ⟨400, "error", "Reporting opens after attendance is locked."⟩ ∧
    report_window_open_student session (some rec) now = true := by
  have hgot : ∀ st' : ViewState, st'.sessions = st.sessions →
      _get_or_create_today_session sc.courseCode (localDate now) st' =
        (session, st') := by
    intro st' hsess
    unfold _get_or_create_today_session
    rw [hsess, hfind]
  have hresp : ∀ st' : ViewState, st'.sessions = st.sessions →
      (post sc user req now st').1 =
        ⟨400, "error", "Reporting opens after attendance is locked."⟩ := by
    intro st' hsess
    unfold post
    rw [if_pos (by simp [hact])]
    unfold _handle_report_issue
    rw [hgot st' hsess]
    simp [hrole, _lock_deadline, hbefore]
  refine ⟨?_, rfl, hresp st rfl, ?_⟩
  · rw [hresp st rfl, hresp { st with records := f } rfl]
  · have h1 : t + 240 ≤ now := by linarith
    have h2 : now ≤ t + 240 + 480 := by linarith
    simp [report_window_open_student, _lock_deadline, hmark, h1, h2]

theorem C10_witness :
    (post scEx studentEx reqReportEx 700
        { stEx with records := fun _ => none }).1 =
      (post scEx studentEx reqReportEx 700 stEx).1 ∧
    _lock_deadline sessEx none = combine sessEx.date sessEx.endTime ∧
    (post scEx studentEx reqReportEx 700 stEx).1 =
      ⟨400, "error", "Reporting opens after attendance is locked."⟩ ∧
    report_window_open_student sessEx (some recEx) 700 = true :=
  C10_report_gate_session_only scEx studentEx reqReportEx 700 400 stEx sessEx
    recEx (fun _ => none) rfl rfl (by decide) rfl (by norm_num) (by norm_num)
    (by decide)

end Attendance

/-!
Sanity checks: concrete evaluations of the string and clock parsers
against CPython's behaviour on the same inputs (minute 810 of day 0 is
13:30 on a Thursday; `"1:30"` only matches `'%H:%M'`; `"24"` matches no
accepted format because `%H` consumes only the `2`, leaving unconverted
data).
-/

example : Attendance._within_schedule_window "" 0 = true := by decide
example :
    Attendance._within_schedule_window
      "TUESDAY/THURSDAY - AFTERNOON | 1:30 - 3:00 PM | B-202" 810 = true := by
  decide
example :
    Attendance._within_schedule_window
      "TUESDAY/THURSDAY - AFTERNOON | 1:30 - 3:00 PM | B-202" 960 = false := by
  decide
example :
    Attendance._within_schedule_window
      "MONDAY - AFTERNOON | 1:30 - 3:00 PM" 810 = false := by
  decide
example : Attendance._within_schedule_window "MONDAY | 1:30" 7200 = false := by
  decide
example : Attendance.parse_clock "1:30 pm".data = some 810 := by decide
example : Attendance.parse_clock "13:30".data = some 810 := by decide
example : Attendance.parse_clock "12 AM".data = some 0 := by decide
example : Attendance.parse_clock "12:05 PM".data = some 725 := by decide
example : Attendance.parse_clock "3".data = some 180 := by decide
example : Attendance.parse_clock "23".data = some 1380 := by decide
example : Attendance.parse_clock "24".data = none := by decide
example : Attendance.parse_clock "abc".data = none := by decide
example : Attendance.parse_clock "1:30".data = some 90 := by decide
example : Attendance.parse_clock "0:30".data = some 30 := by decide
